import Mathlib

/-!
Shallow embedding of the gofiber-jwt-poc authentication core.

Sources embedded here:
* `utils` package (`GenerateAccessToken`, `ValidateJWT`): the signed token
  codec built on `github.com/golang-jwt/jwt/v5` with HMAC-SHA256.
* `services` package (`GenerateAuthToken`, `RefreshAndRevokeToken`): the
  session issuance orchestrator over the refresh-token store.
* `handlers` package (`RefreshTokenHandler`): the HTTP boundary of the
  refresh flow.
* `middlewares.AuthMiddleware`: the dispatcher choosing between the JWT
  path and the API-key path.
* GORM-backed persistence (`models.RefreshToken`, `models.User`,
  `models.ApiKey` over sqlite) is modelled as pure state passing over
  lists of records, with `First`/`Delete`/`Create` as list operations.

Time is modelled in Unix seconds as `Nat`.  HMAC-SHA256 is modelled
symbolically: the signature is an injective function of the secret and
the signed bytes (ideal MAC), rendered as a byte list so that byte-level
tampering statements can be made.  golang-jwt v5 validates expiry with
`cmp.Before(exp)` and zero leeway, so a token is timely iff `now < exp`.
-/

namespace JwtPoc

/-- `utils.Claims`: the JWT claim set `{user_id, role, exp}`.
`expiresAt` is the `ExpiresAt` registered claim in Unix seconds. -/
structure Claims where
  userID : Nat
  role : String
  expiresAt : Nat
deriving DecidableEq, Repr

/-- Serialization of the claim set into signing-input bytes (the role of
the base64url-encoded JSON payload in the wire format).  Symbolic but
injective, so distinct claim sets have distinct payload bytes. -/
def encodeClaims (c : Claims) : List Nat :=
  c.userID :: c.expiresAt :: c.role.length :: c.role.data.map Char.toNat

/-- HMAC-SHA256 modelled as an ideal MAC: the tag bytes determine the
secret and the message injectively.  `ValidateJWT` only ever compares a
presented signature with a freshly recomputed one, so only determinism
and injectivity of the function are used. -/
def hmacSHA256 (secret msg : List Nat) : List Nat :=
  secret.length :: (secret ++ msg)

/-- A signed access token: claims plus the signature over their encoding
(the third dot-separated segment of the compact serialization). -/
structure Token where
  claims : Claims
  sig : List Nat
deriving DecidableEq, Repr

/-- `utils.GenerateAccessToken(userID, role)`: claims with
`ExpiresAt = now + 15 minutes`, signed with `SigningMethodHS256` under
the process secret. -/
def GenerateAccessToken (secret : List Nat) (now : Nat) (userID : Nat)
    (role : String) : Token :=
  let claims : Claims :=
    { userID := userID, role := role, expiresAt := now + 15 * 60 }
  { claims := claims, sig := hmacSHA256 secret (encodeClaims claims) }

/-- `utils.ValidateJWT(signedToken)`: parse, recompute the HMAC over the
received payload bytes, check it against the received signature, then
validate the registered claims; golang-jwt v5 accepts the expiry iff
`now.Before(exp)` (no leeway).  Any failure yields `none` (the caller
sees only a generic invalid-token error). -/
def ValidateJWT (secret : List Nat) (now : Nat) (t : Token) : Option Claims :=
  if t.sig = hmacSHA256 secret (encodeClaims t.claims) then
    if now < t.claims.expiresAt then some t.claims else none
  else none

/-- `models.RefreshToken`: persisted record with autoincrement primary
key `id`, owning `userID`, unique `token` value, and `expiryDate`. -/
structure RefreshToken where
  id : Nat
  userID : Nat
  token : String
  expiryDate : Nat
deriving DecidableEq, Repr

/-- `models.User` (the fields the auth core reads). -/
structure User where
  id : Nat
  username : String
  role : String
deriving DecidableEq, Repr

/-- `models.ApiKey`: `key` is the primary key; `isActive` defaults true. -/
structure ApiKey where
  key : String
  userID : Nat
  client : String
  scope : String
  isActive : Bool
deriving DecidableEq, Repr

/-- The GORM-backed sqlite store (`config.DB`), restricted to the tables
the auth core touches. -/
structure DB where
  refreshTokens : List RefreshToken
  users : List User
  apiKeys : List ApiKey
deriving DecidableEq, Repr

/-- `DB.Where("token = ? AND expiry_date > ?", v, time.Now()).First(...)`:
first refresh-token record with the exact token value that has not yet
expired. -/
def findRefreshToken (db : DB) (v : String) (now : Nat) : Option RefreshToken :=
  db.refreshTokens.find? fun r => r.token = v ∧ now < r.expiryDate

/-- `DB.First(&user, id)`: look up a user by primary key. -/
def findUser (db : DB) (uid : Nat) : Option User :=
  db.users.find? fun u => u.id = uid

/-- `DB.Delete(&oldToken)`: delete by primary key.  Deleting a row that
is already gone affects zero rows and is not an error (the call site
ignores the result). -/
def deleteRefreshToken (db : DB) (t : RefreshToken) : DB :=
  { db with refreshTokens := db.refreshTokens.filter fun r => r.id ≠ t.id }

/-- Autoincrement primary key for a freshly inserted refresh token:
strictly above every existing id. -/
def nextTokenId (db : DB) : Nat :=
  (db.refreshTokens.map RefreshToken.id).foldr max 0 + 1

/-- `DB.Create(&refreshTokenModel)`: append the new record. -/
def createRefreshToken (db : DB) (r : RefreshToken) : DB :=
  { db with refreshTokens := db.refreshTokens ++ [r] }

/-- Failures surfacing from the service layer: `gorm.ErrRecordNotFound`
from a `First` that matches nothing, or an error from `DB.Create`. -/
inductive SvcError where
  | recordNotFound
  | createFailed
deriving DecidableEq, Repr

/-- Per-call environment: the process signing secret, the wall clock at
the call, the value `uuid.New().String()` produces for this call, and
whether the store accepts the `Create` of the new refresh token. -/
structure GenEnv where
  secret : List Nat
  now : Nat
  freshToken : String
  createOk : Bool

/-- `services.GenerateAuthToken(user)`: issue an access token for the
user, generate a fresh refresh-token value with 30-day expiry and
persist it; if `Create` fails the whole call errors and neither token is
returned.  The final store state is always returned alongside. -/
def GenerateAuthToken (e : GenEnv) (db : DB) (user : User) :
    Except SvcError (Token × String) × DB :=
  let access := GenerateAccessToken e.secret e.now user.id user.role
  let newRec : RefreshToken :=
    { id := nextTokenId db, userID := user.id, token := e.freshToken
      expiryDate := e.now + 30 * 24 * 60 * 60 }
  if e.createOk then
    (Except.ok (access, e.freshToken), createRefreshToken db newRec)
  else
    (Except.error SvcError.createFailed, db)

/-- `services.RefreshAndRevokeToken(oldRefreshToken)`: find the unexpired
record with the presented value; find its owning user; only then delete
the record and issue a fresh pair via `GenerateAuthToken`.  Either
`First` matching nothing errors out before the delete happens. -/
def RefreshAndRevokeToken (e : GenEnv) (db : DB) (old : String) :
    Except SvcError (Token × String) × DB :=
  match findRefreshToken db old e.now with
  | none => (Except.error SvcError.recordNotFound, db)
  | some oldToken =>
    match findUser db oldToken.userID with
    | none => (Except.error SvcError.recordNotFound, db)
    | some user =>
      GenerateAuthToken e (deleteRefreshToken db oldToken) user

/-- HTTP responses of the auth handlers, restricted to what the refresh
flow can produce. -/
inductive HttpResponse where
  | badRequest (msg : String)
  | unauthorized (msg : String)
  | okTokens (access : Token) (refresh : String)
deriving DecidableEq, Repr

/-- `handlers.RefreshTokenHandler`: empty form value is a 400; any error
from `RefreshAndRevokeToken` becomes the one 401 message
`"Invalid or expired refresh token"`; success returns the new pair. -/
def RefreshTokenHandler (e : GenEnv) (db : DB) (refreshToken : String) :
    HttpResponse × DB :=
  if refreshToken = "" then (HttpResponse.badRequest "Missing refresh token", db)
  else
    match RefreshAndRevokeToken e db refreshToken with
    | (Except.error _, db') =>
        (HttpResponse.unauthorized "Invalid or expired refresh token", db')
    | (Except.ok (a, r), db') => (HttpResponse.okTokens a r, db')

/-! ## Auth dispatcher (`middlewares.AuthMiddleware`) -/

/-- `strings.SplitN(s, " ", 2)` on the character list: split at the first
space character only.  `none` when the string holds no space (the Go call
then returns a single part, so `len(parts) != 2`). -/
def splitFirstSpace : List Char → Option (List Char × List Char)
  | [] => none
  | c :: cs =>
    if c = ' ' then some ([], cs)
    else
      match splitFirstSpace cs with
      | some (a, b) => some (c :: a, b)
      | none => none

/-- `strings.EqualFold` restricted to the ASCII folding the comparison
with `"Bearer"` exercises: equality after lower-casing each character. -/
def eqFold (a b : List Char) : Bool :=
  a.map Char.toLower = b.map Char.toLower

/-- `DB.Where("key = ? AND is_active = ?", apiKeyHeader, true).First(...)`:
first API-key record whose key matches exactly and which is active. -/
def lookupApiKey (db : DB) (k : String) : Option ApiKey :=
  db.apiKeys.find? fun a => a.key = k ∧ a.isActive = true

/-- Outcome of the dispatcher: the context stored in `c.Locals` plus
`c.Next()`, or one of the 401 rejections. -/
inductive AuthResult where
  | jwtAuth (userID : Nat) (role : String)
  | apiKeyAuth (clientID : String) (scope : String) (userID : Nat)
  | malformedHeader
  | invalidJWT
  | invalidKey
  | missingCredentials
deriving DecidableEq, Repr

/-- `middlewares.AuthMiddleware`: a nonempty `Authorization` header is
always handled by the JWT branch (`SplitN` on one space, case-insensitive
`Bearer` check, then `utils.ValidateJWT` on the remainder); only when it
is absent is the `api-key` header consulted; both absent is a 401.
`validate` is the string-level interface of `utils.ValidateJWT` (the
wire-format parsing of the token string is outside this embedding). -/
def AuthMiddleware (validate : String → Option Claims) (db : DB)
    (authHeader apiKeyHeader : String) : AuthResult :=
  if authHeader ≠ "" then
    match splitFirstSpace authHeader.data with
    | none => AuthResult.malformedHeader
    | some (p0, p1) =>
      if eqFold p0 "Bearer".data then
        match validate (String.mk p1) with
        | none => AuthResult.invalidJWT
        | some claims => AuthResult.jwtAuth claims.userID claims.role
      else AuthResult.malformedHeader
  else if apiKeyHeader ≠ "" then
    match lookupApiKey db apiKeyHeader with
    | none => AuthResult.invalidKey
    | some a => AuthResult.apiKeyAuth a.client a.scope a.userID
  else AuthResult.missingCredentials

/-- Spec-worded well-formedness of the `Authorization` header, for
comparison with the code: the header must consist of exactly two
whitespace-separated tokens whose first token is case-insensitively
`"Bearer"`. -/
def specWhitespaceTokens (s : String) : List String :=
  ((s.data.splitOnP fun c => c.isWhitespace).map String.mk).filter fun t => t ≠ ""

/-- Spec-worded malformedness predicate for the `Authorization` header
(the claim's characterization, not the code's). -/
def specMalformed (s : String) : Bool :=
  match specWhitespaceTokens s with
  | [a, _] => ¬ eqFold a.data "Bearer".data
  | _ => true

/-! ## Interleaved execution of two concurrent `RefreshAndRevokeToken` calls

Each GORM statement (`First` on the token, `First` on the user, `Delete`,
`Create`) is a separate round-trip to the store, so two goroutines
running `RefreshAndRevokeToken` interleave at statement granularity.
A thread is a program counter plus the local variables `oldToken` and
`user`; the store is shared. -/

/-- Thread-local state of one in-flight `RefreshAndRevokeToken` call.
`pc` 0: before the token `First`; 1: before the user `First`; 2: before
the `Delete`; 3: before the `Create`; 4: returned successfully;
5: returned an error. -/
structure ThreadState where
  pc : Nat
  oldTok : Option RefreshToken
  usr : Option User
deriving DecidableEq, Repr

/-- Initial thread state. -/
def ThreadState.init : ThreadState := { pc := 0, oldTok := none, usr := none }

/-- One atomic store statement of `RefreshAndRevokeToken` executed by one
thread against the shared store.  The `Delete` of an already-deleted row
affects zero rows and is not treated as an error (the call site ignores
the result of `config.DB.Delete`). -/
def stepThread (e : GenEnv) (v : String) (t : ThreadState) (db : DB) :
    ThreadState × DB :=
  match t.pc with
  | 0 =>
    match findRefreshToken db v e.now with
    | some r => ({ t with pc := 1, oldTok := some r }, db)
    | none => ({ t with pc := 5 }, db)
  | 1 =>
    match t.oldTok with
    | some r =>
      match findUser db r.userID with
      | some u => ({ t with pc := 2, usr := some u }, db)
      | none => ({ t with pc := 5 }, db)
    | none => ({ t with pc := 5 }, db)
  | 2 =>
    match t.oldTok with
    | some r => ({ t with pc := 3 }, deleteRefreshToken db r)
    | none => ({ t with pc := 5 }, db)
  | 3 =>
    match t.usr with
    | some u =>
      if e.createOk then
        ({ t with pc := 4 },
          createRefreshToken db
            { id := nextTokenId db, userID := u.id, token := e.freshToken
              expiryDate := e.now + 30 * 24 * 60 * 60 })
      else ({ t with pc := 5 }, db)
    | none => ({ t with pc := 5 }, db)
  | _ => (t, db)

/-- Run a schedule over two threads, both consuming the same token value
`v`: `false` steps thread A (environment `eA`), `true` steps thread B. -/
def runSched (eA eB : GenEnv) (v : String) :
    List Bool → ThreadState × ThreadState × DB → ThreadState × ThreadState × DB
  | [], s => s
  | false :: rest, (ta, tb, db) =>
    let (ta', db') := stepThread eA v ta db
    runSched eA eB v rest (ta', tb, db')
  | true :: rest, (ta, tb, db) =>
    let (tb', db') := stepThread eB v tb db
    runSched eA eB v rest (ta, tb', db')

/-! ## Helper lemmas -/

/-- `Char.toNat` determines the character. -/
theorem char_toNat_injective : Function.Injective Char.toNat := by
  intro a b h
  exact Char.eq_of_val_eq (UInt32.eq_of_val_eq (Fin.ext h))

/-- The payload encoding separates distinct claim sets. -/
theorem encodeClaims_injective : Function.Injective encodeClaims := by
  intro c c' h
  simp only [encodeClaims, List.cons.injEq] at h
  obtain ⟨h1, h2, _, h4⟩ := h
  have hdata : c.role.data = c'.role.data :=
    List.map_injective_iff.mpr char_toNat_injective h4
  cases c with
  | mk u r x =>
    cases c' with
    | mk u' r' x' =>
      cases r; cases r'
      simp_all

/-- For a fixed secret, the MAC separates distinct messages. -/
theorem hmacSHA256_msg_injective (secret m m' : List Nat)
    (h : hmacSHA256 secret m = hmacSHA256 secret m') : m = m' := by
  simp only [hmacSHA256, List.cons.injEq] at h
  exact List.append_cancel_left h.2

/-- Overwriting a list entry with a different value changes the list. -/
theorem set_ne_of_ne_get (l : List Nat) (i : Nat) (hi : i < l.length) (b : Nat)
    (hb : b ≠ l.get ⟨i, hi⟩) : l.set i b ≠ l := by
  intro h
  apply hb
  have := congrArg (fun xs => xs.get? i) h
  simp only [List.get?_set_eq, List.get?_eq_get hi] at this
  simpa using this

/-! ## Claims -/

/-- C1: for every user id and role string, issuing an access token with
`GenerateAccessToken` and validating it with `ValidateJWT` before its
expiry time (15 minutes after issuance) returns exactly the same pair of
user id and role. -/
theorem verify_issue_roundtrip (secret : List Nat) (idn : Nat) (role : String)
    (tIssue tVerify : Nat) (h : tVerify < tIssue + 15 * 60) :
    ValidateJWT secret tVerify (GenerateAccessToken secret tIssue idn role) =
      some { userID := idn, role := role, expiresAt := tIssue + 15 * 60 } := by
  simp [ValidateJWT, GenerateAccessToken, h]

/-- Witness for C1 at a concrete secret, identity, role and clock. -/
theorem verify_issue_roundtrip_witness :
    ValidateJWT [3, 5] 100 (GenerateAccessToken [3, 5] 0 42 "admin") =
      some { userID := 42, role := "admin", expiresAt := 900 } :=
  verify_issue_roundtrip [3, 5] 42 "admin" 0 100 (by decide)

/-- C8: whenever persisting the new refresh token fails
(`DB.Create` errors), `GenerateAuthToken` fails as a whole and returns no
access token, leaving the store as it was. -/
theorem login_fails_when_persist_fails (e : GenEnv) (db : DB) (u : User)
    (h : e.createOk = false) :
    GenerateAuthToken e db u = (Except.error SvcError.createFailed, db) := by
  simp [GenerateAuthToken, h]

/-- Witness for C8 at a concrete environment, store and user. -/
theorem login_fails_when_persist_fails_witness :
    GenerateAuthToken
        { secret := [1], now := 0, freshToken := "u1", createOk := false }
        { refreshTokens := [], users := [], apiKeys := [] }
        { id := 7, username := "bob", role := "user" } =
      (Except.error SvcError.createFailed,
        { refreshTokens := [], users := [], apiKeys := [] }) :=
  login_fails_when_persist_fails _ _ _ rfl

/-- C10: if the presented refresh token is found valid but the owning
user lookup fails, the refresh call errors before the delete statement:
the store is returned unchanged and the record is still present, so the
same value remains consumable. -/
theorem refresh_user_missing_leaves_store (e : GenEnv) (db : DB) (v : String)
    (r : RefreshToken)
    (hfind : findRefreshToken db v e.now = some r)
    (huser : findUser db r.userID = none) :
    (RefreshAndRevokeToken e db v).1 = Except.error SvcError.recordNotFound
  ∧ (RefreshAndRevokeToken e db v).2 = db
  ∧ r ∈ (RefreshAndRevokeToken e db v).2.refreshTokens := by
  refine ⟨?_, ?_, ?_⟩ <;> simp [RefreshAndRevokeToken, hfind, huser]
  exact List.mem_of_find?_eq_some hfind

/-- Witness for C10: a store holding one valid record whose owner is
absent from the user table. -/
theorem refresh_user_missing_leaves_store_witness :
    (RefreshAndRevokeToken
        { secret := [1], now := 10, freshToken := "u2", createOk := true }
        { refreshTokens := [{ id := 1, userID := 42, token := "rt", expiryDate := 1000 }]
          users := [], apiKeys := [] } "rt").1 = Except.error SvcError.recordNotFound
  ∧ (RefreshAndRevokeToken
        { secret := [1], now := 10, freshToken := "u2", createOk := true }
        { refreshTokens := [{ id := 1, userID := 42, token := "rt", expiryDate := 1000 }]
          users := [], apiKeys := [] } "rt").2 =
      { refreshTokens := [{ id := 1, userID := 42, token := "rt", expiryDate := 1000 }]
        users := [], apiKeys := [] }
  ∧ ({ id := 1, userID := 42, token := "rt", expiryDate := 1000 } : RefreshToken) ∈
      (RefreshAndRevokeToken
        { secret := [1], now := 10, freshToken := "u2", createOk := true }
        { refreshTokens := [{ id := 1, userID := 42, token := "rt", expiryDate := 1000 }]
          users := [], apiKeys := [] } "rt").2.refreshTokens :=
  refresh_user_missing_leaves_store _ _ "rt" _ (by decide) (by decide)

/-- C6: `ValidateJWT` rejects (returns no identity for) every token whose
signature has any single byte overwritten with a different value, every
token whose claims were altered without re-signing, and every token
presented strictly after its expiry — in particular exactly one second
after — with no clock-skew leeway. -/
theorem validateJWT_rejects_tampering_and_expiry :
    (∀ (secret : List Nat) (now : Nat) (c : Claims) (i : Nat)
        (hi : i < (hmacSHA256 secret (encodeClaims c)).length) (b : Nat),
        b ≠ (hmacSHA256 secret (encodeClaims c)).get ⟨i, hi⟩ →
        ValidateJWT secret now
          { claims := c, sig := (hmacSHA256 secret (encodeClaims c)).set i b } = none)
  ∧ (∀ (secret : List Nat) (now : Nat) (c c' : Claims), c' ≠ c →
        ValidateJWT secret now
          { claims := c', sig := hmacSHA256 secret (encodeClaims c) } = none)
  ∧ (∀ (secret sig : List Nat) (c : Claims) (now : Nat), c.expiresAt < now →
        ValidateJWT secret now { claims := c, sig := sig } = none) := by
  refine ⟨?_, ?_, ?_⟩
  · intro secret now c i hi b hb
    have hne := set_ne_of_ne_get (hmacSHA256 secret (encodeClaims c)) i hi b hb
    simp [ValidateJWT, hne]
  · intro secret now c c' hne
    have hsig : hmacSHA256 secret (encodeClaims c) ≠
        hmacSHA256 secret (encodeClaims c') := by
      intro h
      exact hne (encodeClaims_injective (hmacSHA256_msg_injective secret _ _ h)).symm
    simp [ValidateJWT, hsig]
  · intro secret sig c now hlt
    have hexp : ¬ now < c.expiresAt := by omega
    simp [ValidateJWT, hexp]

/-- Witness for C6: a concrete token with its first signature byte
changed, a concrete altered claim set under an unaltered signature, and a
concrete token presented one second after expiry. -/
theorem validateJWT_rejects_witness :
    ValidateJWT [3] 0
      { claims := { userID := 1, role := "user", expiresAt := 50 }
        sig := (hmacSHA256 [3]
          (encodeClaims { userID := 1, role := "user", expiresAt := 50 })).set 0 99 } = none
  ∧ ValidateJWT [3] 0
      { claims := { userID := 2, role := "user", expiresAt := 50 }
        sig := hmacSHA256 [3]
          (encodeClaims { userID := 1, role := "user", expiresAt := 50 }) } = none
  ∧ ValidateJWT [3] 51
      { claims := { userID := 1, role := "user", expiresAt := 50 }
        sig := hmacSHA256 [3]
          (encodeClaims { userID := 1, role := "user", expiresAt := 50 }) } = none :=
  ⟨validateJWT_rejects_tampering_and_expiry.1 [3] 0 _ 0 (by decide) 99 (by decide),
   validateJWT_rejects_tampering_and_expiry.2.1 [3] 0 _ _ (by decide),
   validateJWT_rejects_tampering_and_expiry.2.2 [3] _ _ 51 (by decide)⟩

/-- C2: consuming a live refresh-token value twice in sequence: the first
`RefreshAndRevokeToken` call succeeds — its access token carries the
identity owning the record — and the second call on the resulting store
fails with the record-not-found error.  The hypotheses state that the
value names a live record, its owner exists, the store accepts the new
record, the freshly generated value differs from the presented one, and
the token column is unique (the `gorm:"unique"` constraint on
`models.RefreshToken.Token`). -/
theorem consume_twice_second_fails
    (e1 e2 : GenEnv) (db : DB) (v : String) (r : RefreshToken) (u : User)
    (hfind : findRefreshToken db v e1.now = some r)
    (huser : findUser db r.userID = some u)
    (hok : e1.createOk = true)
    (hfresh : e1.freshToken ≠ v)
    (huniq : ∀ r' ∈ db.refreshTokens, r'.token = v → r' = r) :
    (RefreshAndRevokeToken e1 db v).1 =
        Except.ok (GenerateAccessToken e1.secret e1.now u.id u.role, e1.freshToken)
  ∧ (RefreshAndRevokeToken e2 (RefreshAndRevokeToken e1 db v).2 v).1 =
        Except.error SvcError.recordNotFound := by
  have hfst : RefreshAndRevokeToken e1 db v =
      (Except.ok (GenerateAccessToken e1.secret e1.now u.id u.role, e1.freshToken),
        createRefreshToken (deleteRefreshToken db r)
          { id := nextTokenId (deleteRefreshToken db r), userID := u.id
            token := e1.freshToken
            expiryDate := e1.now + 30 * 24 * 60 * 60 }) := by
    simp [RefreshAndRevokeToken, hfind, huser, GenerateAuthToken, hok]
  refine ⟨by rw [hfst], ?_⟩
  rw [hfst]
  have hnone : findRefreshToken
      (createRefreshToken (deleteRefreshToken db r)
        { id := nextTokenId (deleteRefreshToken db r), userID := u.id
          token := e1.freshToken
          expiryDate := e1.now + 30 * 24 * 60 * 60 }) v e2.now = none := by
    rw [findRefreshToken, List.find?_eq_none]
    intro x hx
    simp only [createRefreshToken, deleteRefreshToken, List.mem_append,
      List.mem_filter, List.mem_singleton] at hx
    rcases hx with ⟨hxmem, hxid⟩ | hxnew
    · simp only [decide_eq_true_eq, not_and]
      intro hxv
      exact absurd (congrArg RefreshToken.id (huniq x hxmem hxv)) (by simpa using hxid)
    · simp only [hxnew, decide_eq_true_eq, not_and]
      intro hxv
      exact absurd hxv hfresh
  simp [RefreshAndRevokeToken, hnone]

/-- Witness for C2: one live record owned by a present user, consumed
twice with the same value. -/
theorem consume_twice_second_fails_witness :
    (RefreshAndRevokeToken
        { secret := [1], now := 10, freshToken := "u9", createOk := true }
        { refreshTokens := [{ id := 1, userID := 42, token := "rt", expiryDate := 1000 }]
          users := [{ id := 42, username := "alice", role := "admin" }]
          apiKeys := [] } "rt").1 =
      Except.ok (GenerateAccessToken [1] 10 42 "admin", "u9")
  ∧ (RefreshAndRevokeToken
        { secret := [1], now := 11, freshToken := "ua", createOk := true }
        (RefreshAndRevokeToken
          { secret := [1], now := 10, freshToken := "u9", createOk := true }
          { refreshTokens := [{ id := 1, userID := 42, token := "rt", expiryDate := 1000 }]
            users := [{ id := 42, username := "alice", role := "admin" }]
            apiKeys := [] } "rt").2 "rt").1 =
      Except.error SvcError.recordNotFound :=
  consume_twice_second_fails _ _ _ "rt"
    { id := 1, userID := 42, token := "rt", expiryDate := 1000 }
    { id := 42, username := "alice", role := "admin" }
    (by decide) (by decide) rfl (by decide) (by decide)

/-- C4: whenever the `Authorization` header is nonempty, the dispatcher
resolves the request through the JWT branch only: the outcome is the same
for every value of the `api-key` header, it is never the API-key context,
and a successful outcome carries exactly the identity and role decoded
from the bearer token. -/
theorem auth_header_shortcircuits
    (validate : String → Option Claims) (db : DB) (authHeader k1 k2 : String)
    (h : authHeader ≠ "") :
    AuthMiddleware validate db authHeader k1 = AuthMiddleware validate db authHeader k2
  ∧ (∀ cl sc uid,
      AuthMiddleware validate db authHeader k1 ≠ AuthResult.apiKeyAuth cl sc uid)
  ∧ (∀ p0 p1 c, splitFirstSpace authHeader.data = some (p0, p1) →
      eqFold p0 "Bearer".data = true → validate (String.mk p1) = some c →
      AuthMiddleware validate db authHeader k1 = AuthResult.jwtAuth c.userID c.role) := by
  refine ⟨?_, ?_, ?_⟩
  · simp only [AuthMiddleware, if_pos h]
  · intro cl sc uid
    simp only [AuthMiddleware, if_pos h]
    rcases hs : splitFirstSpace authHeader.data with _ | ⟨p0, p1⟩
    · simp
    · rcases hf : eqFold p0 "Bearer".data with _ | _
      · simp [hf]
      · rcases hv : validate (String.mk p1) with _ | c <;> simp [hf, hv]
  · intro p0 p1 c hs hf hv
    simp [AuthMiddleware, if_pos h, hs, hf, hv]

/-- Witness for C4: a valid bearer header together with an active API key
bound to a different identity; the result is the JWT identity and is
unchanged when the `api-key` header is dropped. -/
theorem auth_header_shortcircuits_witness :
    AuthMiddleware
        (fun s => if s = "tok" then some { userID := 5, role := "user", expiresAt := 99 } else none)
        { refreshTokens := [], users := []
          apiKeys := [{ key := "k1", userID := 8, client := "cli", scope := "admin", isActive := true }] }
        "Bearer tok" "k1" =
      AuthMiddleware
        (fun s => if s = "tok" then some { userID := 5, role := "user", expiresAt := 99 } else none)
        { refreshTokens := [], users := []
          apiKeys := [{ key := "k1", userID := 8, client := "cli", scope := "admin", isActive := true }] }
        "Bearer tok" ""
  ∧ AuthMiddleware
        (fun s => if s = "tok" then some { userID := 5, role := "user", expiresAt := 99 } else none)
        { refreshTokens := [], users := []
          apiKeys := [{ key := "k1", userID := 8, client := "cli", scope := "admin", isActive := true }] }
        "Bearer tok" "k1" = AuthResult.jwtAuth 5 "user" :=
  ⟨(auth_header_shortcircuits _ _ "Bearer tok" "k1" "" (by decide)).1,
   (auth_header_shortcircuits _ _ "Bearer tok" "k1" "" (by decide)).2.2
     "Bearer".data "tok".data { userID := 5, role := "user", expiresAt := 99 }
     (by decide) (by decide) rfl⟩

/-- C9: `lookupApiKey` succeeds exactly when some persisted record with
that exact key value is active, and then returns such a record's bound
fields; an inactive record and an absent record both yield the very same
`none`, and the dispatcher turns both into the same rejection. -/
theorem apikey_lookup_characterization (db : DB) (k : String) :
    ((lookupApiKey db k).isSome ↔ ∃ a ∈ db.apiKeys, a.key = k ∧ a.isActive = true)
  ∧ (∀ a, lookupApiKey db k = some a →
      a ∈ db.apiKeys ∧ a.key = k ∧ a.isActive = true)
  ∧ ((¬ ∃ a ∈ db.apiKeys, a.key = k ∧ a.isActive = true) →
      lookupApiKey db k = none)
  ∧ (∀ validate, k ≠ "" → (¬ ∃ a ∈ db.apiKeys, a.key = k ∧ a.isActive = true) →
      AuthMiddleware validate db "" k = AuthResult.invalidKey) := by
  have hiff : (lookupApiKey db k).isSome ↔
      ∃ a ∈ db.apiKeys, a.key = k ∧ a.isActive = true := by
    rw [lookupApiKey, List.find?_isSome]
    simp
  have hnone : (¬ ∃ a ∈ db.apiKeys, a.key = k ∧ a.isActive = true) →
      lookupApiKey db k = none := by
    intro hno
    rcases hl : lookupApiKey db k with _ | a
    · rfl
    · exact absurd (hiff.mp (by simp [hl])) hno
  refine ⟨hiff, ?_, hnone, ?_⟩
  · intro a hl
    have hmem := List.mem_of_find?_eq_some hl
    have hp := List.find?_some hl
    simp only [decide_eq_true_eq] at hp
    exact ⟨hmem, hp⟩
  · intro validate hk hno
    simp [AuthMiddleware, hk, hnone hno]

/-- Witness for C9: a store holding one active and one inactive key; the
active key is found with its bound fields, a never-created key and the
inactive key both fail identically. -/
theorem apikey_lookup_witness :
    lookupApiKey
        { refreshTokens := [], users := []
          apiKeys := [{ key := "dead", userID := 1, client := "c1", scope := "s1", isActive := false },
                      { key := "live", userID := 2, client := "c2", scope := "s2", isActive := true }] }
        "dead" = none
  ∧ lookupApiKey
        { refreshTokens := [], users := []
          apiKeys := [{ key := "dead", userID := 1, client := "c1", scope := "s1", isActive := false },
                      { key := "live", userID := 2, client := "c2", scope := "s2", isActive := true }] }
        "ghost" = none
  ∧ AuthMiddleware (fun _ => none)
        { refreshTokens := [], users := []
          apiKeys := [{ key := "dead", userID := 1, client := "c1", scope := "s1", isActive := false },
                      { key := "live", userID := 2, client := "c2", scope := "s2", isActive := true }] }
        "" "dead" = AuthResult.invalidKey :=
  ⟨(apikey_lookup_characterization _ "dead").2.2.1 (by decide),
   (apikey_lookup_characterization _ "ghost").2.2.1 (by decide),
   (apikey_lookup_characterization _ "dead").2.2.2 (fun _ => none) (by decide) (by decide)⟩

/-- C5 counterexample: the header `"Bearer a b"` consists of three
whitespace-separated tokens, so the claim's characterization calls it
malformed; the dispatcher nonetheless accepts it, handing the whole
remainder `"a b"` (not a single token) to verification — here the
verifier recognises it and the request is authenticated. -/
theorem three_token_header_not_rejected :
    specMalformed "Bearer a b" = true
  ∧ AuthMiddleware
      (fun s => if s = "a b" then some { userID := 7, role := "admin", expiresAt := 99 } else none)
      { refreshTokens := [], users := [], apiKeys := [] }
      "Bearer a b" "" = AuthResult.jwtAuth 7 "admin" := by
  constructor
  · decide
  · rfl

/-- C5 amended: for a nonempty `Authorization` header, the dispatcher
rejects it as malformed exactly when the header contains no space
character, or the segment before the first space is not case-insensitively
`"Bearer"`; otherwise the entire remainder after the first space —
possibly empty or containing further spaces — is what is handed to token
verification. -/
theorem auth_header_parsing (validate : String → Option Claims) (db : DB)
    (hd k : String) (hne : hd ≠ "") :
    (AuthMiddleware validate db hd k = AuthResult.malformedHeader ↔
      splitFirstSpace hd.data = none ∨
        ∃ p0 p1, splitFirstSpace hd.data = some (p0, p1) ∧
          eqFold p0 "Bearer".data = false)
  ∧ (∀ p0 p1, splitFirstSpace hd.data = some (p0, p1) →
      eqFold p0 "Bearer".data = true →
      AuthMiddleware validate db hd k =
        match validate (String.mk p1) with
        | none => AuthResult.invalidJWT
        | some c => AuthResult.jwtAuth c.userID c.role) := by
  constructor
  · simp only [AuthMiddleware, if_pos hne]
    rcases hs : splitFirstSpace hd.data with _ | ⟨p0, p1⟩
    · simp
    · rcases hf : eqFold p0 "Bearer".data with _ | _
      · simp [hf]
      · rcases hv : validate (String.mk p1) with _ | c <;> simp [hf, hv]
  · intro p0 p1 hs hf
    simp [AuthMiddleware, if_pos hne, hs, hf]

/-- Witness for the amended C5 at concrete headers: a spaceless header is
malformed, and a well-prefixed header hands the remainder to the
verifier. -/
theorem auth_header_parsing_witness :
    AuthMiddleware (fun _ => none)
        { refreshTokens := [], users := [], apiKeys := [] } "BearerTok" "" =
      AuthResult.malformedHeader
  ∧ AuthMiddleware (fun _ => none)
        { refreshTokens := [], users := [], apiKeys := [] } "bearer t" "" =
      AuthResult.invalidJWT :=
  ⟨(auth_header_parsing (fun _ => none) _ "BearerTok" "" (by decide)).1.mpr
      (Or.inl (by decide)),
   (auth_header_parsing (fun _ => none) _ "bearer t" "" (by decide)).2
      "bearer".data "t".data (by decide) (by decide)⟩

/-- C7 counterexample: with the token record absent, and with the record
present but its owning user absent, the refresh flow produces the very
same service-level error and the handler produces the very same 401
response — the role-resolution failure is conflated with
`NotFoundOrExpired` at the boundary. -/
theorem refresh_failure_kinds_conflated :
    (RefreshAndRevokeToken
        { secret := [1], now := 10, freshToken := "u1", createOk := true }
        { refreshTokens := [], users := [], apiKeys := [] } "rt").1 =
      (RefreshAndRevokeToken
        { secret := [1], now := 10, freshToken := "u1", createOk := true }
        { refreshTokens := [{ id := 1, userID := 42, token := "rt", expiryDate := 1000 }]
          users := [], apiKeys := [] } "rt").1
  ∧ (RefreshTokenHandler
        { secret := [1], now := 10, freshToken := "u1", createOk := true }
        { refreshTokens := [], users := [], apiKeys := [] } "rt").1 =
      (RefreshTokenHandler
        { secret := [1], now := 10, freshToken := "u1", createOk := true }
        { refreshTokens := [{ id := 1, userID := 42, token := "rt", expiryDate := 1000 }]
          users := [], apiKeys := [] } "rt").1
  ∧ (RefreshTokenHandler
        { secret := [1], now := 10, freshToken := "u1", createOk := true }
        { refreshTokens := [{ id := 1, userID := 42, token := "rt", expiryDate := 1000 }]
          users := [], apiKeys := [] } "rt").1 =
      HttpResponse.unauthorized "Invalid or expired refresh token" := by
  refine ⟨rfl, rfl, rfl⟩

/-- C7 amended: every failure inside the refresh flow — the presented
value matching no live record, or the owning user's record being absent —
surfaces at the handler boundary as the one 401 response
`"Invalid or expired refresh token"`; the two causes are not
distinguished. -/
theorem refresh_failures_one_response (e : GenEnv) (db : DB) (v : String)
    (hv : v ≠ "") :
    (findRefreshToken db v e.now = none →
      (RefreshTokenHandler e db v).1 =
        HttpResponse.unauthorized "Invalid or expired refresh token")
  ∧ (∀ r, findRefreshToken db v e.now = some r → findUser db r.userID = none →
      (RefreshTokenHandler e db v).1 =
        HttpResponse.unauthorized "Invalid or expired refresh token") := by
  constructor
  · intro hnone
    simp [RefreshTokenHandler, hv, RefreshAndRevokeToken, hnone]
  · intro r hfind huser
    simp [RefreshTokenHandler, hv, RefreshAndRevokeToken, hfind, huser]

/-- Witness for the amended C7 at the two concrete failing stores. -/
theorem refresh_failures_one_response_witness :
    (RefreshTokenHandler
        { secret := [1], now := 10, freshToken := "u1", createOk := true }
        { refreshTokens := [], users := [], apiKeys := [] } "rt").1 =
      HttpResponse.unauthorized "Invalid or expired refresh token"
  ∧ (RefreshTokenHandler
        { secret := [1], now := 10, freshToken := "u1", createOk := true }
        { refreshTokens := [{ id := 1, userID := 42, token := "rt", expiryDate := 1000 }]
          users := [], apiKeys := [] } "rt").1 =
      HttpResponse.unauthorized "Invalid or expired refresh token" :=
  ⟨(refresh_failures_one_response _ _ "rt" (by decide)).1 (by decide),
   (refresh_failures_one_response _ _ "rt" (by decide)).2
     { id := 1, userID := 42, token := "rt", expiryDate := 1000 }
     (by decide) (by decide)⟩

/-- C3: two concurrent `RefreshAndRevokeToken` calls on the same
still-valid token value can BOTH succeed.  The lookup and the delete are
separate store statements with no transaction around them, so under the
interleaving that runs both token lookups before either delete, both
threads pass every check and both reach the successful return
(`pc = 4`) — contradicting the claim that exactly one succeeds. -/
theorem concurrent_consume_both_succeed :
    ((runSched
        { secret := [1], now := 10, freshToken := "fA", createOk := true }
        { secret := [1], now := 10, freshToken := "fB", createOk := true }
        "rt" [false, true, false, true, false, true, false, true]
        (ThreadState.init, ThreadState.init,
          { refreshTokens := [{ id := 1, userID := 42, token := "rt", expiryDate := 1000 }]
            users := [{ id := 42, username := "alice", role := "admin" }]
            apiKeys := [] })).1.pc = 4)
  ∧ ((runSched
        { secret := [1], now := 10, freshToken := "fA", createOk := true }
        { secret := [1], now := 10, freshToken := "fB", createOk := true }
        "rt" [false, true, false, true, false, true, false, true]
        (ThreadState.init, ThreadState.init,
          { refreshTokens := [{ id := 1, userID := 42, token := "rt", expiryDate := 1000 }]
            users := [{ id := 42, username := "alice", role := "admin" }]
            apiKeys := [] })).2.1.pc = 4) := by
  refine ⟨rfl, rfl⟩

end JwtPoc
